import Mathlib

/-!
Sentient-Trader-RL: verification of the episode simulation-and-fusion engine

Shallow embedding of the core logic of the repository, translated from the
Python sources:

* `src/main.py`      — PPI tier mapping, deterministic action blending, the
                       episode session manager (`take_step`, `end_episode`);
* `src/env.py`       — Strategy A trust scoring (`_calculate_ppi`);
* `src/train_sentient_trader.py` — Strategy B trust scoring
                       (`calculate_hybrid_ppi`);
* `src/env_finrl.py` — actor regret update, regret gate, trade execution
                       branch, 42-dim observation assembly.

Real numbers in the Python source (floats) are modelled as rationals `ℚ`;
Python's `round(x, n)` (round-half-even) is modelled exactly on `ℚ`;
random draws and network responses are passed as explicit parameters.
-/

namespace SentientTrader

/-! ## Rounding: Python's `round(x, ndigits)` (banker's rounding) on `ℚ` -/

/-- Round a rational to the nearest integer, ties to even
(Python's `round` semantics). -/
def rne (x : ℚ) : ℤ :=
  let f : ℤ := ⌊x⌋
  let r : ℚ := x - f
  if r < 1/2 then f
  else if r > 1/2 then f + 1
  else if f % 2 = 0 then f else f + 1

/-- Model of Python's `round(x, n)` for `n` decimal digits. -/
def roundTo (n : ℕ) (x : ℚ) : ℚ :=
  (rne (x * 10 ^ n) : ℚ) / 10 ^ n

/-! ## Action data model (src/main.py, Pydantic `Action`) -/

/-- The closed set of action kinds, `Literal["buy", "sell", "hold"]`. -/
inductive AType where
  | buy
  | hold
  | sell
deriving DecidableEq, Repr

/-- Record `Action` from `src/main.py`: kind, size, confidence, reasoning. -/
structure STAction where
  type : AType
  size : ℚ
  confidence : ℚ
  reasoning : String
deriving DecidableEq, Repr

/-- Mapping `action_values` of `blend_actions` (src/main.py line 230):
buy to 1, hold to 0, sell to -1. -/
def actionValues : AType → ℚ
  | .buy => 1
  | .hold => 0
  | .sell => -1

/-- Kind rendered as the Python string literal. -/
def typeString : AType → String
  | .buy => "buy"
  | .hold => "hold"
  | .sell => "sell"

/-- The concatenated reasoning text of `blend_actions` (src/main.py line 254).
The numeric `:.2f` interpolations of the source f-string are elided (they are
presentational; no claim concerns the reasoning text contents). -/
def blendReasoning (rl grok : STAction) (ft : AType) : String :=
  "[Hybrid Decision]\n- RL Agent: " ++ typeString rl.type ++ " - " ++
    rl.reasoning ++ "\n- Grok AI: " ++ typeString grok.type ++ " - " ++
    grok.reasoning ++ "\n- Final: " ++ typeString ft

/-- Function `blend_actions` (src/main.py lines 226-261): 50/50 weighted vote of the
RL action and the Grok action.  Scalars buy=1 / hold=0 / sell=-1 are
averaged and thresholded at ±0.3; sizes are averaged; confidence is the
average scaled by the agreement factor (1.0 on matching kinds, 0.5
otherwise); size and confidence are passed through Python's
`round(_, 3)`. -/
def blend_actions (rl_action grok_action : STAction) : STAction :=
  let rl_value := actionValues rl_action.type
  let grok_value := actionValues grok_action.type
  let blended_value := (rl_value + grok_value) / 2
  let final_type : AType :=
    if blended_value > 3/10 then .buy
    else if blended_value < -(3/10) then .sell
    else .hold
  let final_size := (rl_action.size + grok_action.size) / 2
  let agreement : ℚ := if rl_action.type = grok_action.type then 1 else 1/2
  let final_confidence :=
    (rl_action.confidence + grok_action.confidence) / 2 * agreement
  { type := final_type
    size := roundTo 3 final_size
    confidence := roundTo 3 final_confidence
    reasoning := blendReasoning rl_action grok_action final_type }

/-! ## PPI tier mapping (src/main.py, `PPI_TIER_MAP` and `get_ppi_tier`) -/

/-- Function `get_ppi_tier` (src/main.py lines 45-50): iterate the insertion-ordered
`PPI_TIER_MAP` bins `(0,20) ... (80,100)`, returning the first tier whose
half-open bin `low <= score < high` contains the score, defaulting to
`"Self-Actualization"` (the Python comment: "Default for 100"). -/
def get_ppi_tier (ppi_score : ℚ) : String :=
  if 0 ≤ ppi_score ∧ ppi_score < 20 then "Survival (Physiological)"
  else if 20 ≤ ppi_score ∧ ppi_score < 40 then "Safety"
  else if 40 ≤ ppi_score ∧ ppi_score < 60 then "Belonging"
  else if 60 ≤ ppi_score ∧ ppi_score < 80 then "Esteem"
  else if 80 ≤ ppi_score ∧ ppi_score < 100 then "Self-Actualization"
  else "Self-Actualization"

/-! ## Strategy A trust scoring (src/env.py, `_calculate_ppi`) -/

/-- Model of `np.clip(x, lo, hi)`. -/
def np_clip (x lo hi : ℚ) : ℚ := max lo (min x hi)

/-- Method `_calculate_ppi` of `SentientTraderEnv` (src/env.py lines 258-289).
The two `np.random.uniform` draws (community upvotes in `[0.6, 1.0]` and
solar percentage in `[0.7, 1.0]`) are passed in as the explicit parameters
`belonging_draw` and `solar_pct`; the theorem below holds for arbitrary
(even adversarial, out-of-range) values of every parameter, because the
source clips the total with `np.clip(total_ppi, 0, 100)`. -/
def calculate_ppi (volatility drawdown pnl_pct belonging_draw solar_pct : ℚ) : ℚ :=
  let safety_raw : ℚ :=
    (if volatility < 5/100 then 50 else 0) + (if drawdown < 10 then 50 else 0)
  let safety_score := safety_raw / 100 * 40
  let belonging_score := belonging_draw * 20
  let esteem_score : ℚ := if pnl_pct > 0 then min (pnl_pct / 10) 1 * 20 else 0
  let self_actualization_score := solar_pct * 20
  let total_ppi :=
    safety_score + belonging_score + esteem_score + self_actualization_score
  np_clip total_ppi 0 100

/-! ## Strategy B trust scoring (src/train_sentient_trader.py, `calculate_hybrid_ppi`) -/

/-- Input record `episode_data` as read by `calculate_hybrid_ppi`
(src/train_sentient_trader.py lines 33-56), with the `.get` defaults of the
source as the natural "absent" values. -/
structure HybridEpisodeData where
  fear_greed : ℚ
  etf_inflows : ℚ
  solar_regen : Bool
  whale_accum : ℚ
  sharpe : ℚ
deriving DecidableEq, Repr

/-- Function `calculate_hybrid_ppi` (src/train_sentient_trader.py lines
33-92), composite value only (the returned silo list carries the same
rounded scores and weights used in the sum).  Five silos: Sentiment 0.4,
Flow 0.2, Tech 0.15, Macro 0.15, Esteem 0.1; each silo score is passed
through `round(_, 2)` when stored in the silo list, and the composite is
`sum(score * weight) * 10` over that list.  Note: the source applies no
clamp to the composite. -/
def calculate_hybrid_ppi (d : HybridEpisodeData) : ℚ :=
  let sentiment_score := d.fear_greed / 10
  let flow_score := min (d.etf_inflows / 1000000000) 10
  let tech_score : ℚ := if d.solar_regen then 7 else 3
  let macro_score : ℚ := if d.whale_accum > 20000 then 8 else 4
  let esteem_score := 6 + d.sharpe * 2
  let silos : List (ℚ × ℚ) :=
    [(roundTo 2 sentiment_score, 4/10),
     (roundTo 2 flow_score, 2/10),
     (roundTo 2 tech_score, 15/100),
     (roundTo 2 macro_score, 15/100),
     (roundTo 2 esteem_score, 1/10)]
  (silos.map (fun s => s.1 * s.2)).sum * 10

/-! ## Actor regret update (src/env_finrl.py, `_update_actor_regrets`) -/

/-- Outcome of one Advisory Oracle regret-forecast call for one actor, as
seen by `_update_actor_regrets` (src/env_finrl.py lines 290-314).  Three
paths: a 200 response whose parsed JSON may or may not carry a `"regret"`
field (`success`); a delivered response with any other status code
(`non200` — `requests.post` does not raise on an HTTP error status, so the
`if response.status_code == 200` test simply falls through and neither the
assignment nor the fallback runs); or an exception inside the `try`
(connection error, timeout, malformed JSON), which lands in the bare
`except` (`failure`). -/
inductive RegretApiResult where
  | success (regret : Option ℚ)
  | non200
  | failure
deriving DecidableEq, Repr

/-- Model of `np.clip(x, 0, 1)`. -/
def clip01 (x : ℚ) : ℚ := max 0 (min x 1)

/-- One actor's regret update from `_update_actor_regrets` (src/env_finrl.py
lines 290-314).  On a 200 response the stored regret becomes
`data.get("regret", 0.5)` — assigned directly, with no clamp.  On a non-200
response that raises no exception, the status test fails and the stored
regret is left unchanged (also unclamped).  On an exception the fallback
random walk applies: `np.clip(r + noise, 0, 1)`, where `noise` stands for
the `np.random.randn() * 0.1` draw.  The bare `except` makes the update
total: no failure propagates to the caller, which this total function
models structurally. -/
def update_actor_regret (current : ℚ) (res : RegretApiResult) (noise : ℚ) : ℚ :=
  match res with
  | .success v => v.getD (1/2)
  | .non200 => current
  | .failure => clip01 (current + noise)

/-! ## Regret gate and trade execution (src/env_finrl.py, `step`) -/

/-- Maximum of the six actor regrets, `np.max(self.actor_regrets)`. -/
def maxRegrets (r : Fin 6 → ℚ) : ℚ :=
  max (r 0) (max (r 1) (max (r 2) (max (r 3) (max (r 4) (r 5)))))

/-- One record of the `self.trades` log (src/env_finrl.py lines 230-236). -/
structure Trade where
  step : ℕ
  action : String
  size : ℚ
  price : ℚ
deriving DecidableEq, Repr

/-- The action-execution chain of `SentientTraderFinRLEnv.step`
(src/env_finrl.py lines 204-227): given current capital and the executed
discrete action, return `(new_capital, trade_size, action_name)`.  The
`risk_pct` list indexing `[0.25, 0.5, 1.0][action - 1]` is unrolled per
action; an action outside 0-8 matches no branch and leaves the
initialisations `trade_size = 0`, `action_name = "hold"` in place. -/
def executeTradeBranch (capital : ℚ) (action : ℕ) : ℚ × ℚ × String :=
  if action = 0 then (capital, 0, "hold")
  else if action = 1 then
    let ts := capital * (25/100) / 100; (capital - ts, ts, "long_0.25%")
  else if action = 2 then
    let ts := capital * (5/10) / 100; (capital - ts, ts, "long_0.5%")
  else if action = 3 then
    let ts := capital * 1 / 100; (capital - ts, ts, "long_1.0%")
  else if action = 4 then
    let ts := capital * (25/100) / 100; (capital + ts, ts, "short_0.25%")
  else if action = 5 then
    let ts := capital * (5/10) / 100; (capital + ts, ts, "short_0.5%")
  else if action = 6 then
    let ts := capital * 1 / 100; (capital + ts, ts, "short_1.0%")
  else if action = 7 then
    let ts := capital * (10/100); (capital - ts, ts, "ramp_ez")
  else if action = 8 then
    let ts : ℚ := 2/100; (capital - ts, ts, "trac")
  else (capital, 0, "hold")

/-- Result of the gate-and-execute phase of `step`: new capital, new trade
log, the `regret_blocked` flag, and the executed `action_name`. -/
structure StepTradeResult where
  capital : ℚ
  trades : List Trade
  regret_blocked : Bool
  action_name : String
deriving DecidableEq, Repr

/-- Execution of a (possibly gate-substituted) action plus trade recording
(src/env_finrl.py lines 204-236): run the execution chain, then append a
trade record exactly when `trade_size != 0`. -/
def executeAndRecord (capital : ℚ) (trades : List Trade) (price : ℚ)
    (stepIdx : ℕ) (action : ℕ) (blocked : Bool) : StepTradeResult :=
  let e := executeTradeBranch capital action
  { capital := e.1
    trades :=
      if e.2.1 ≠ 0 then
        trades ++ [{ step := stepIdx, action := e.2.2, size := e.2.1, price := price }]
      else trades
    regret_blocked := blocked
    action_name := e.2.2 }

/-- The regret gate plus trade execution of `SentientTraderFinRLEnv.step`
(src/env_finrl.py lines 196-236).  `regrets` is the actor-regret vector
after `_update_actor_regrets` has run.  If `np.max(regrets) > 0.7` the
action is overwritten with 0 (HOLD) and `regret_blocked` is set; otherwise
the requested `action` executes and `regret_blocked` is false. -/
def stepTradePhase (regrets : Fin 6 → ℚ) (action : ℕ) (capital : ℚ)
    (trades : List Trade) (price : ℚ) (stepIdx : ℕ) : StepTradeResult :=
  if maxRegrets regrets > 7/10 then
    executeAndRecord capital trades price stepIdx 0 true
  else
    executeAndRecord capital trades price stepIdx action false

/-! ## Observation assembly (src/env_finrl.py, `_get_obs`) -/

/-- Method `_get_obs` of `SentientTraderFinRLEnv` (src/env_finrl.py lines
152-180): concatenate the PPI silos, actor regrets, actor inventories
(divided by 100), actor last actions and the five market indicators
`[dxy/100, vix/100, fear_greed/100, price/100000, log1p(volume)/20]`;
zero-pad on the right to 42 entries when shorter (`np.pad`), then truncate
to the first 42 (`[:42]`).  The upstream blocks are taken as lists of
arbitrary length so the claim's "populated or empty upstream signals" is
covered; `logVolTerm` stands for the transcendental `np.log1p(volume)/20`
scalar, whose value is irrelevant to the vector's shape. -/
def get_obs (ppi_silos actor_regrets actor_inventory actor_last_action : List ℚ)
    (dxy vix fear_greed price logVolTerm : ℚ) : List ℚ :=
  let obs := ppi_silos ++ actor_regrets ++
    actor_inventory.map (fun x => x / 100) ++ actor_last_action ++
    [dxy / 100, vix / 100, fear_greed / 100, price / 100000, logVolTerm]
  let padded :=
    if obs.length < 42 then obs ++ List.replicate (42 - obs.length) 0 else obs
  padded.take 42

/-! ## Episode session manager (src/main.py, `take_step` and `end_episode`) -/

/-- In-memory per-episode record, the `active_episodes[episode_id]` dict
entry created by `start_episode` (src/main.py lines 318-325).  The
`ppi_score` key is absent until the first step writes it, which
`episode_data.get("ppi_score", 75.0)` reads with default 75. -/
structure EpisodeRec where
  agent_id : String
  initial_balance : ℚ
  current_step : ℕ
  ppi_score : Option ℚ
deriving DecidableEq, Repr

/-- The process-wide `active_episodes` dict, modelled as a partial map from
episode id to live record. -/
def Registry : Type := String → Option EpisodeRec

/-- Errors surfaced by the session endpoints: HTTP 404 (`NotFound`) and the
HTTP 500 wrapper around store failures. -/
inductive ApiError where
  | notFound
  | internal
deriving DecidableEq, Repr

/-- The `StepResponse` payload of `/step` (fields relevant to the core). -/
structure StepResult where
  episode_id : String
  step : ℕ
  act : STAction
deriving DecidableEq, Repr

/-- Endpoint `take_step` (src/main.py lines 342-416).  Raises 404 when the
episode id is not in `active_episodes`; otherwise blends the RL and Grok
actions with `blend_actions`, increments the episode's step counter, and
updates the stored PPI score by `max(0, min(100, current_ppi + reward*2))`
with `current_ppi` defaulting to 75.  The stochastic RL decision, the
Grok decision and the random reward draw are explicit parameters; the
best-effort store insert and the broadcast have no effect on this state. -/
def take_step (reg : Registry) (episode_id : String)
    (rl_action grok_action : STAction) (reward : ℚ) :
    Except ApiError (Registry × StepResult) :=
  match reg episode_id with
  | none => .error .notFound
  | some ep =>
    let act := blend_actions rl_action grok_action
    let current_step := ep.current_step + 1
    let current_ppi := ep.ppi_score.getD 75
    let new_ppi := max 0 (min 100 (current_ppi + reward * 2))
    let ep' : EpisodeRec :=
      { ep with current_step := current_step, ppi_score := some new_ppi }
    .ok (fun k => if k = episode_id then some ep' else reg k,
      { episode_id := episode_id, step := current_step, act := act })

/-- An `agents` table row as read and written by `end_episode`
(src/main.py lines 447-461); `irr`, `sharpe`, `ppi_score` may be NULL,
which the source reads as `(x or 0)`. -/
structure AgentRow where
  episodes_trained : ℕ
  irr : Option ℚ
  sharpe : Option ℚ
  ppi_score : Option ℚ
deriving DecidableEq, Repr

/-- The `EndEpisodeRequest` body of `/end`. -/
structure EndEpisodeReq where
  final_pnl : ℚ
  ppi_score : ℚ
  total_steps : ℕ
  total_reward : ℚ
deriving DecidableEq, Repr

/-- Endpoint `end_episode` (src/main.py lines 419-494).  Raises 404 when the
episode id is not live.  Otherwise: episode-store writes run first
(modelled by `storeOk`; any exception there is caught and re-raised as a
500 *before* the registry delete, leaving the registry unchanged); on
success it computes `irr = final_pnl / initial_balance * 100` and
`sharpe = irr / max(1, total_steps / 10)`, folds both plus the submitted
PPI into the owning agent's running averages
`new = (old * (n - 1) + value) / n` with `n = episodes_trained` (skipped
when the agent row is absent), and finally deletes the episode from
`active_episodes`. -/
def end_episode (reg : Registry) (episode_id : String) (req : EndEpisodeReq)
    (agentRow : Option AgentRow) (storeOk : Bool) :
    Except ApiError (Registry × Option AgentRow) :=
  match reg episode_id with
  | none => .error .notFound
  | some ep =>
    if storeOk then
      let irr := req.final_pnl / ep.initial_balance * 100
      let sharpe := irr / max 1 ((req.total_steps : ℚ) / 10)
      let agent' := agentRow.map (fun a =>
        let n : ℚ := a.episodes_trained
        { a with
          irr := some ((a.irr.getD 0 * (n - 1) + irr) / n)
          sharpe := some ((a.sharpe.getD 0 * (n - 1) + sharpe) / n)
          ppi_score := some ((a.ppi_score.getD 0 * (n - 1) + req.ppi_score) / n) })
      .ok (fun k => if k = episode_id then none else reg k, agent')
    else .error .internal

/-- Registry left by an `end_episode` call, with a fallback for the error
branches (in which the source leaves `active_episodes` untouched). -/
def registryAfterEnd (r : Except ApiError (Registry × Option AgentRow))
    (fallback : Registry) : Registry :=
  match r with
  | .ok (reg, _) => reg
  | .error _ => fallback

/-- Agent row left by an `end_episode` call, `none` on error or when no
agent row existed. -/
def agentAfterEnd (r : Except ApiError (Registry × Option AgentRow)) :
    Option AgentRow :=
  match r with
  | .ok (_, a) => a
  | .error _ => none

/-- The `irr` running average left by an `end_episode` call. -/
def endAgentIrr (r : Except ApiError (Registry × Option AgentRow)) : Option ℚ :=
  (agentAfterEnd r).bind (fun a => a.irr)

/-! ## Helper lemmas -/

/-- If the trade-execution chain reports the executed action name `"hold"`,
then it took a hold branch: capital unchanged, trade size zero. -/
theorem executeTradeBranch_hold (c : ℚ) (a : ℕ)
    (h : (executeTradeBranch c a).2.2 = "hold") :
    executeTradeBranch c a = (c, 0, "hold") := by
  obtain _ | _ | _ | _ | _ | _ | _ | _ | _ | n := a
  · rfl
  · exact absurd h (by decide : ¬ (("long_0.25%" : String) = "hold"))
  · exact absurd h (by decide : ¬ (("long_0.5%" : String) = "hold"))
  · exact absurd h (by decide : ¬ (("long_1.0%" : String) = "hold"))
  · exact absurd h (by decide : ¬ (("short_0.25%" : String) = "hold"))
  · exact absurd h (by decide : ¬ (("short_0.5%" : String) = "hold"))
  · exact absurd h (by decide : ¬ (("short_1.0%" : String) = "hold"))
  · exact absurd h (by decide : ¬ (("ramp_ez" : String) = "hold"))
  · exact absurd h (by decide : ¬ (("trac" : String) = "hold"))
  · rfl

/-! ## Theorems for the claims -/

/-- C1 (amended): Strategy A's tiered composite `_calculate_ppi` lies in
[0,100] for every input, including adversarial negative or huge sub-score
inputs, because the source clips the total with `np.clip(total, 0, 100)`.
Strategy B's weighted silo composite `calculate_hybrid_ppi` carries no such
clamp and can leave [0,100] (see the counterexample theorem). -/
theorem strategyA_composite_clamped
    (volatility drawdown pnl_pct belonging_draw solar_pct : ℚ) :
    0 ≤ calculate_ppi volatility drawdown pnl_pct belonging_draw solar_pct ∧
      calculate_ppi volatility drawdown pnl_pct belonging_draw solar_pct ≤ 100 := by
  unfold calculate_ppi np_clip
  exact ⟨le_max_left _ _, max_le (by norm_num) (min_le_right _ _)⟩

/-- C1 counterexample: Strategy B's composite is not clamped.  With
`sharpe = 100` (all other episode-data inputs at their `.get` defaults)
the esteem silo scores `6 + 100*2 = 206` and the composite is
`236.5 > 100`. -/
theorem hybrid_composite_exceeds_range :
    calculate_hybrid_ppi
      { fear_greed := 50, etf_inflows := 0, solar_regen := false,
        whale_accum := 0, sharpe := 100 } > 100 := by
  norm_num [calculate_hybrid_ppi, roundTo, rne]

/-- C2 (amended): the actor-regret update never propagates a failure, and
the stored regret stays in [0,1] provided it was in [0,1] before the update
and any successfully returned oracle value is in [0,1].  Only the
exception path clamps unconditionally (`np.clip(_, 0, 1)` on the fallback
random walk, for any current regret and any noise draw); the success path
stores the returned value (or the 0.5 default) unclamped, and a non-200
response without an exception leaves the stored regret unchanged and
unclamped, so those two paths preserve the bound only under the stated
hypotheses. -/
theorem regret_update_bounded (current noise : ℚ) (res : RegretApiResult)
    (hc0 : 0 ≤ current) (hc1 : current ≤ 1)
    (hres : ∀ v, res = .success (some v) → 0 ≤ v ∧ v ≤ 1) :
    (0 ≤ update_actor_regret current res noise ∧
      update_actor_regret current res noise ≤ 1) ∧
    update_actor_regret current .non200 noise = current := by
  refine ⟨?_, rfl⟩
  cases res with
  | success v =>
    cases v with
    | none =>
      unfold update_actor_regret
      norm_num
    | some x =>
      have hx := hres x rfl
      unfold update_actor_regret
      simpa using hx
  | non200 =>
    exact ⟨hc0, hc1⟩
  | failure =>
    unfold update_actor_regret clip01
    exact ⟨le_max_left _ _, max_le (by norm_num) (min_le_right _ _)⟩

/-- C2 witness: a successful oracle call returning regret 3/4 from a stored
regret of 1/2 keeps the stored regret within [0,1]. -/
theorem regret_update_bounded_witness :
    (0 ≤ update_actor_regret (1/2) (.success (some (3/4))) 0 ∧
      update_actor_regret (1/2) (.success (some (3/4))) 0 ≤ 1) ∧
    update_actor_regret (1/2) .non200 0 = 1/2 :=
  regret_update_bounded (1/2) 0 (.success (some (3/4)))
    (by norm_num) (by norm_num)
    (fun v hv => by
      injection hv with h
      injection h with h2
      subst h2
      norm_num)

/-- C2 counterexample: on a successful oracle response the regret is stored
without clamping, so an out-of-range returned value 3/2 leaves the stored
regret at 3/2, violating the claimed [0,1] bound. -/
theorem regret_success_unclamped :
    ¬ (update_actor_regret (1/2) (.success (some (3/2))) 0 ≤ 1) := by
  norm_num [update_actor_regret]

/-- C3: in `SentientTraderFinRLEnv.step`, whenever the post-update maximum
actor regret exceeds 0.7 the executed final action is hold (capital and
trade log untouched, action name `"hold"`) and `regret_blocked = true`,
regardless of the requested action; otherwise `regret_blocked = false` and
the requested action is the one executed. -/
theorem regret_gate_override (r : Fin 6 → ℚ) (a : ℕ) (c : ℚ)
    (t : List Trade) (p : ℚ) (s : ℕ) :
    (maxRegrets r > 7/10 →
      stepTradePhase r a c t p s =
        { capital := c, trades := t, regret_blocked := true,
          action_name := "hold" }) ∧
    (¬ maxRegrets r > 7/10 →
      stepTradePhase r a c t p s = executeAndRecord c t p s a false) := by
  constructor
  · intro h
    unfold stepTradePhase
    rw [if_pos h]
    simp [executeAndRecord, executeTradeBranch]
  · intro h
    unfold stepTradePhase
    rw [if_neg h]

/-- C3 witness: with all six regrets at 0.9 a requested LONG action (3) is
overridden to hold with `regret_blocked = true`; with all regrets at 0.1 a
requested TRAC action (8) executes unblocked. -/
theorem regret_gate_override_witness :
    stepTradePhase (fun _ => 9/10) 3 1 [] 5 0 =
      { capital := 1, trades := [], regret_blocked := true,
        action_name := "hold" } ∧
    stepTradePhase (fun _ => 1/10) 8 1 [] 5 0 =
      executeAndRecord 1 [] 5 0 8 false :=
  ⟨(regret_gate_override (fun _ => 9/10) 3 1 [] 5 0).1
      (by norm_num [maxRegrets]),
   (regret_gate_override (fun _ => 1/10) 8 1 [] 5 0).2
      (by norm_num [maxRegrets])⟩

/-- C4: the tier mapping is total on [0,100]: each half-open bin of width 20
yields its tier name, a score of exactly 100 falls to the default branch and
maps to Self-Actualization, and every score in [0,100] maps to one of the
five tier names. -/
theorem tier_mapping_total (x : ℚ) (h0 : 0 ≤ x) (h100 : x ≤ 100) :
    (x < 20 → get_ppi_tier x = "Survival (Physiological)") ∧
    (20 ≤ x → x < 40 → get_ppi_tier x = "Safety") ∧
    (40 ≤ x → x < 60 → get_ppi_tier x = "Belonging") ∧
    (60 ≤ x → x < 80 → get_ppi_tier x = "Esteem") ∧
    (80 ≤ x → get_ppi_tier x = "Self-Actualization") ∧
    (get_ppi_tier x = "Survival (Physiological)" ∨ get_ppi_tier x = "Safety" ∨
      get_ppi_tier x = "Belonging" ∨ get_ppi_tier x = "Esteem" ∨
      get_ppi_tier x = "Self-Actualization") := by
  refine ⟨fun hx => ?_, fun ha hb => ?_, fun ha hb => ?_, fun ha hb => ?_,
    fun ha => ?_, ?_⟩
  · unfold get_ppi_tier
    rw [if_pos ⟨h0, hx⟩]
  · unfold get_ppi_tier
    rw [if_neg (by rintro ⟨-, h⟩; linarith), if_pos ⟨ha, hb⟩]
  · unfold get_ppi_tier
    rw [if_neg (by rintro ⟨-, h⟩; linarith), if_neg (by rintro ⟨-, h⟩; linarith),
      if_pos ⟨ha, hb⟩]
  · unfold get_ppi_tier
    rw [if_neg (by rintro ⟨-, h⟩; linarith), if_neg (by rintro ⟨-, h⟩; linarith),
      if_neg (by rintro ⟨-, h⟩; linarith), if_pos ⟨ha, hb⟩]
  · unfold get_ppi_tier
    rw [if_neg (by rintro ⟨-, h⟩; linarith), if_neg (by rintro ⟨-, h⟩; linarith),
      if_neg (by rintro ⟨-, h⟩; linarith), if_neg (by rintro ⟨-, h⟩; linarith)]
    split_ifs <;> rfl
  · unfold get_ppi_tier
    split_ifs with h1 h2 h3 h4 h5
    · exact Or.inl rfl
    · exact Or.inr (Or.inl rfl)
    · exact Or.inr (Or.inr (Or.inl rfl))
    · exact Or.inr (Or.inr (Or.inr (Or.inl rfl)))
    · exact Or.inr (Or.inr (Or.inr (Or.inr rfl)))
    · exact Or.inr (Or.inr (Or.inr (Or.inr rfl)))

/-- C4 witness: the boundary composite 100 maps to Self-Actualization. -/
theorem tier_mapping_total_witness :
    get_ppi_tier 100 = "Self-Actualization" :=
  (tier_mapping_total 100 (by norm_num) (by norm_num)).2.2.2.2.1 (by norm_num)

/-- C5 (amended): the deterministic blend maps kinds to signed scalars
(buy=+1, hold=0, sell=-1), averages them and thresholds the average
(`> 0.3` buy, `< -0.3` sell, else hold); the final size is the arithmetic
mean of the two sizes *rounded to 3 decimal places* (Python `round`), and
the final confidence is `avg(confidence) * agreement` likewise rounded,
with agreement 1.0 on matching kinds and 0.5 otherwise.  In particular
policy=buy, oracle=sell gives hold, and policy=buy, oracle=buy gives buy
with agreement 1.0. -/
theorem blend_deterministic_spec (rl grok : STAction) :
    (blend_actions rl grok).type =
      (if (actionValues rl.type + actionValues grok.type) / 2 > 3/10 then .buy
       else if (actionValues rl.type + actionValues grok.type) / 2 < -(3/10)
         then .sell
       else .hold) ∧
    (blend_actions rl grok).size = roundTo 3 ((rl.size + grok.size) / 2) ∧
    (blend_actions rl grok).confidence =
      roundTo 3 ((rl.confidence + grok.confidence) / 2 *
        (if rl.type = grok.type then 1 else 1/2)) ∧
    (rl.type = .buy → grok.type = .sell →
      (blend_actions rl grok).type = .hold) ∧
    (rl.type = .buy → grok.type = .buy →
      (blend_actions rl grok).type = .buy ∧
      (blend_actions rl grok).confidence =
        roundTo 3 ((rl.confidence + grok.confidence) / 2)) := by
  refine ⟨rfl, rfl, rfl, fun h1 h2 => ?_, fun h1 h2 => ?_⟩
  · simp only [blend_actions, h1, h2, actionValues]
    norm_num
  · simp only [blend_actions, h1, h2, actionValues]
    norm_num

/-- C5 witness: concrete blends — buy vs sell gives hold; buy vs buy gives
buy. -/
theorem blend_deterministic_spec_witness :
    (blend_actions ⟨.buy, 2/10, 9/10, ""⟩ ⟨.sell, 4/10, 7/10, ""⟩).type =
      .hold ∧
    (blend_actions ⟨.buy, 2/10, 9/10, ""⟩ ⟨.buy, 4/10, 7/10, ""⟩).type =
      .buy :=
  ⟨(blend_deterministic_spec ⟨.buy, 2/10, 9/10, ""⟩
      ⟨.sell, 4/10, 7/10, ""⟩).2.2.2.1 rfl rfl,
   ((blend_deterministic_spec ⟨.buy, 2/10, 9/10, ""⟩
      ⟨.buy, 4/10, 7/10, ""⟩).2.2.2.2 rfl rfl).1⟩

/-- C5 counterexample: the returned size is `round(mean, 3)`, not the exact
arithmetic mean: for sizes 0 and 0.003 the mean is 0.0015 but the blended
size is 0.002. -/
theorem blend_size_rounded_not_mean :
    (blend_actions ⟨.buy, 0, 4/5, ""⟩ ⟨.buy, 3/1000, 4/5, ""⟩).size ≠
      ((0 : ℚ) + 3/1000) / 2 := by
  norm_num [blend_actions, roundTo, rne]

/-- C6: the observation vector built by `_get_obs` has length exactly 42
for every combination of populated or empty upstream signal blocks:
shorter assemblies are zero-padded on the right, longer ones truncated on
the right, neither being an error. -/
theorem obs_length_always_42
    (ppi_silos actor_regrets actor_inventory actor_last_action : List ℚ)
    (dxy vix fear_greed price logVolTerm : ℚ) :
    (get_obs ppi_silos actor_regrets actor_inventory actor_last_action
      dxy vix fear_greed price logVolTerm).length = 42 := by
  simp only [get_obs]
  split_ifs with h <;>
    simp only [List.length_take, List.length_append, List.length_replicate,
      List.length_map, List.length_cons, List.length_nil] at h ⊢ <;>
    omega

/-- C7: at episode end, each of the owning agent's tracked running averages
(`irr`, `sharpe`, `ppi_score`) is updated by
`new_avg = (old_avg * (n - 1) + value) / n` with `n` the agent's episode
count, where the per-episode `irr` is `final_pnl / initial_balance * 100`
and `sharpe` is `irr / max(1, total_steps / 10)`; NULL averages read as 0
and the episode count is unchanged. -/
theorem end_episode_running_averages (reg : Registry) (episode_id : String)
    (req : EndEpisodeReq) (ep : EpisodeRec) (a : AgentRow)
    (h : reg episode_id = some ep) :
    agentAfterEnd (end_episode reg episode_id req (some a) true) =
      some { a with
        irr := some ((a.irr.getD 0 * ((a.episodes_trained : ℚ) - 1) +
          req.final_pnl / ep.initial_balance * 100) / (a.episodes_trained : ℚ))
        sharpe := some ((a.sharpe.getD 0 * ((a.episodes_trained : ℚ) - 1) +
          req.final_pnl / ep.initial_balance * 100 /
            max 1 ((req.total_steps : ℚ) / 10)) / (a.episodes_trained : ℚ))
        ppi_score := some ((a.ppi_score.getD 0 * ((a.episodes_trained : ℚ) - 1) +
          req.ppi_score) / (a.episodes_trained : ℚ)) } := by
  unfold end_episode agentAfterEnd
  rw [h]
  simp

/-- C7 witness: an agent with `episodes_trained = 3` and stored `irr = 10`,
ending an episode with `final_pnl = 2000` on `initial_balance = 10000`
(per-episode irr 20), ends with running-average irr `(10*2 + 20)/3 = 40/3`.
-/
theorem end_episode_running_averages_witness :
    endAgentIrr (end_episode
      (fun k => if k = "ep1" then some ⟨"ag1", 10000, 5, some 80⟩ else none)
      "ep1" ⟨2000, 50, 30, 35⟩ (some ⟨3, some 10, some 0, some 0⟩) true) =
      some (40/3) := by
  have h := end_episode_running_averages
    (fun k => if k = "ep1" then some ⟨"ag1", 10000, 5, some 80⟩ else none)
    "ep1" ⟨2000, 50, 30, 35⟩ ⟨"ag1", 10000, 5, some 80⟩
    ⟨3, some 10, some 0, some 0⟩ rfl
  unfold endAgentIrr
  rw [h]
  norm_num

/-- C8: `take_step` fails with NotFound (HTTP 404) for every episode id not
in the live registry, and a successful `end_episode` removes the id from
the registry, so every subsequent `take_step` with that id fails with
NotFound. -/
theorem step_notfound_and_end_terminal (reg : Registry) (episode_id : String)
    (req : EndEpisodeReq) (agentRow : Option AgentRow)
    (rl grok : STAction) (reward : ℚ) :
    (reg episode_id = none →
      take_step reg episode_id rl grok reward = .error .notFound) ∧
    (∀ ep, reg episode_id = some ep →
      registryAfterEnd (end_episode reg episode_id req agentRow true) reg
          episode_id = none ∧
      take_step (registryAfterEnd (end_episode reg episode_id req agentRow true)
        reg) episode_id rl grok reward = .error .notFound) := by
  constructor
  · intro h
    unfold take_step
    rw [h]
  · intro ep h
    have hreg : registryAfterEnd
        (end_episode reg episode_id req agentRow true) reg episode_id = none := by
      unfold end_episode registryAfterEnd
      rw [h]
      simp
    refine ⟨hreg, ?_⟩
    unfold take_step
    rw [hreg]

/-- C8 witness: a step on a missing id 404s, and after ending the only live
episode its id is gone from the registry. -/
theorem step_notfound_and_end_terminal_witness :
    take_step (fun k => if k = "ep1" then some ⟨"ag1", 10000, 0, none⟩ else none)
      "missing" ⟨.hold, 0, 1/2, ""⟩ ⟨.hold, 0, 1/2, ""⟩ 0 =
      .error .notFound ∧
    registryAfterEnd (end_episode
      (fun k => if k = "ep1" then some ⟨"ag1", 10000, 0, none⟩ else none)
      "ep1" ⟨0, 0, 0, 0⟩ none true)
      (fun k => if k = "ep1" then some ⟨"ag1", 10000, 0, none⟩ else none)
      "ep1" = none :=
  ⟨(step_notfound_and_end_terminal
      (fun k => if k = "ep1" then some ⟨"ag1", 10000, 0, none⟩ else none)
      "missing" ⟨0, 0, 0, 0⟩ none ⟨.hold, 0, 1/2, ""⟩ ⟨.hold, 0, 1/2, ""⟩ 0).1
      rfl,
   ((step_notfound_and_end_terminal
      (fun k => if k = "ep1" then some ⟨"ag1", 10000, 0, none⟩ else none)
      "ep1" ⟨0, 0, 0, 0⟩ none ⟨.hold, 0, 1/2, ""⟩ ⟨.hold, 0, 1/2, ""⟩ 0).2
      ⟨"ag1", 10000, 0, none⟩ rfl).1⟩

/-- C9: `blend_actions` is symmetric in its two arguments on the numeric
output fields: swapping the RL and Grok actions leaves the final type,
size, and confidence unchanged (only the reasoning text differs). -/
theorem blend_numeric_symmetric (a b : STAction) :
    (blend_actions a b).type = (blend_actions b a).type ∧
    (blend_actions a b).size = (blend_actions b a).size ∧
    (blend_actions a b).confidence = (blend_actions b a).confidence := by
  obtain ⟨ta, sa, ca, ra⟩ := a
  obtain ⟨tb, sb, cb, rb⟩ := b
  have hag : (if ta = tb then (1 : ℚ) else 1/2) =
      (if tb = ta then (1 : ℚ) else 1/2) := by
    by_cases h : ta = tb
    · subst h; rfl
    · rw [if_neg h, if_neg fun hh => h hh.symm]
  refine ⟨?_, ?_, ?_⟩ <;>
    simp only [blend_actions, hag, add_comm (actionValues tb) (actionValues ta),
      add_comm sb sa, add_comm cb ca]

/-- C10: in `SentientTraderFinRLEnv.step`, whenever the executed action is
hold (requested action 0, an out-of-range action, or any action forced to
hold by the regret gate), the trade-execution branch leaves the capital
unchanged and appends nothing to the trade log; capital mutation and
trade-log growth can only come from non-hold executed actions. -/
theorem hold_frame (r : Fin 6 → ℚ) (a : ℕ) (c : ℚ) (t : List Trade)
    (p : ℚ) (s : ℕ)
    (h : (stepTradePhase r a c t p s).action_name = "hold") :
    (stepTradePhase r a c t p s).capital = c ∧
    (stepTradePhase r a c t p s).trades = t := by
  unfold stepTradePhase at h ⊢
  split_ifs at h ⊢ with hg
  · constructor <;> rfl
  · unfold executeAndRecord at h ⊢
    have he := executeTradeBranch_hold c a h
    rw [he]
    constructor <;> simp

/-- C10 witness: with the regret gate firing on a requested LONG action the
capital and trade log are untouched. -/
theorem hold_frame_witness :
    (stepTradePhase (fun _ => 9/10) 3 1 [] 5 0).capital = 1 ∧
    (stepTradePhase (fun _ => 9/10) 3 1 [] 5 0).trades = [] :=
  hold_frame (fun _ => 9/10) 3 1 [] 5 0
    (by norm_num [stepTradePhase, executeAndRecord, executeTradeBranch,
      maxRegrets])

end SentientTrader
